import Mathlib

/-!
Shallow embedding of the weekly prediction chart scrubber from the
prediction-detail page script (`src/unnamed/part_004`).  JavaScript numbers
are modelled as rationals (`ℚ`), arrays as lists, absent/null values as
`Option`, and the DOM text fields written by the renderer as a small
inductive type of rendered texts.  Each definition mirrors the source
function of the same name.
-/

namespace StockPredictor

/-- The five fixed fractional stops of the scrubber track
(`const positions = [0, 0.25, 0.5, 0.75, 1.0]`, part_004 line 479). -/
def positions : List ℚ := [0, 1/4, 1/2, 3/4, 1]

/-- Loop body of `snapToNearestPosition` (part_004 lines 481-494): iterate
over the indexed stops, keeping the first index attaining the minimal
absolute distance (the running minimum is only replaced on a strictly
smaller distance). -/
def snapAux (rawPercent : ℚ) : List (ℕ × ℚ) → ℕ → ℚ → ℕ
  | [], closest, _ => closest
  | (i, p) :: rest, closest, minDistance =>
      let distance := |rawPercent - p|
      if distance < minDistance then snapAux rawPercent rest i distance
      else snapAux rawPercent rest closest minDistance

/-- Source function `snapToNearestPosition(rawPercent)` (part_004 lines 481-494): `closest`
starts at 0 with `minDistance = |rawPercent - positions[0]|`, then the loop
runs over indices 1..4. -/
def snapToNearestPosition (rawPercent : ℚ) : ℕ :=
  snapAux rawPercent (positions.enum.drop 1) 0 |rawPercent - positions.getD 0 0|

/-- Source function `pointerToPercent(clientX)` (part_004 lines 515-518):
`Math.max(0, Math.min(1, (clientX - rect.left) / rect.width))`. -/
def pointerToPercent (clientX rectLeft rectWidth : ℚ) : ℚ :=
  max 0 (min 1 ((clientX - rectLeft) / rectWidth))

/-- The pointer-event pipeline (part_004 lines 520-525): raw pointer
x-coordinate to fractional percent to snapped day index. -/
def handlePointerPosition (clientX rectLeft rectWidth : ℚ) : ℕ :=
  snapToNearestPosition (pointerToPercent clientX rectLeft rectWidth)

/-- Keys handled by the knob `keydown` listener (part_004 lines 546-559). -/
inductive Key
  | arrowLeft
  | arrowRight
  | home
  | endKey
  | other
deriving DecidableEq

/-- The knob `keydown` handler (part_004 lines 546-559), as the new day
index chosen from the key and the current `currentDayIndex`.  Note the
source calls `updateSliderPosition(4)` for Home (a hard-coded 4) and
`updateSliderPosition(positions.length - 1)` for End. -/
def handleKey (key : Key) (currentDayIndex : ℤ) : ℤ :=
  match key with
  | .arrowLeft => if 0 < currentDayIndex then currentDayIndex - 1 else currentDayIndex
  | .arrowRight =>
      if currentDayIndex < (positions.length : ℤ) - 1 then currentDayIndex + 1
      else currentDayIndex
  | .home => 4
  | .endKey => (positions.length : ℤ) - 1
  | .other => currentDayIndex

/-- Payload of `/api/weekly-predictions` stored in `weeklyPredictionData`:
`{ dates, prices }`. -/
structure PredData where
  dates : List String
  prices : List ℚ
deriving DecidableEq

/-- Payload of `/api/weekly-historical` stored in `weeklyHistoricalData`:
`{ dates, prices, previous_day_price }`; `previous_day_price` may be null. -/
structure HistData where
  dates : List String
  prices : List ℚ
  previous_day_price : Option ℚ
deriving DecidableEq

/-- Result object of `calculateDynamicValues` (part_004 lines 313-321). -/
structure DynamicValues where
  date : String
  predicted_price : ℚ
  predicted_change : ℚ
  real_price : ℚ
  real_change : ℚ
  difference : ℚ
  difference_pct : ℚ
deriving DecidableEq

/-- Source function `calculateDynamicValues(dayIndex, ticker)` (part_004 lines 271-322).
Returns `none` when either series is not loaded or when
`dayIndex < 0 || dayIndex >= predData.dates.length` (the source logs and
returns `null`).  Array reads use `getD _ 0`; JavaScript `null` prices are
modelled as `0` (both are falsy and fail the `> 0` validity tests). -/
def calculateDynamicValues (pred : Option PredData) (hist : Option HistData)
    (dayIndex : ℤ) : Option DynamicValues :=
  match pred, hist with
  | some predData, some histData =>
      if dayIndex < 0 ∨ (predData.dates.length : ℤ) ≤ dayIndex then none
      else
        let currentDate := predData.dates.getD dayIndex.toNat ""
        let predicted_price := predData.prices.getD dayIndex.toNat 0
        let real_price := histData.prices.getD dayIndex.toNat 0
        let changes : ℚ × ℚ :=
          if 0 < dayIndex then
            let prevRealPrice := histData.prices.getD (dayIndex - 1).toNat 0
            (((predicted_price - prevRealPrice) / prevRealPrice) * 100,
             ((real_price - prevRealPrice) / prevRealPrice) * 100)
          else
            match histData.previous_day_price with
            | some prevDayPrice =>
                if 0 < prevDayPrice then
                  (((predicted_price - prevDayPrice) / prevDayPrice) * 100,
                   ((real_price - prevDayPrice) / prevDayPrice) * 100)
                else (0, 0)
            | none => (0, 0)
        let difference := predicted_price - real_price
        let difference_pct := (difference / real_price) * 100
        some ⟨currentDate, predicted_price, changes.1, real_price, changes.2,
              |difference|, difference_pct⟩
  | _, _ => none

/-- Text written into a metrics DOM field by `updateDisplayValues`:
either the literal `"Unknown"`, the literal `"--"`, a dollar amount
`$v`, or a signed percentage `±v%`. -/
inductive FieldText
  | unknownText
  | dashes
  | dollars (v : ℚ)
  | pct (v : ℚ)
deriving DecidableEq

/-- The six metric text fields written by `updateDisplayValues`
(part_004 lines 336-353). -/
structure DisplayFields where
  diffVal : FieldText
  diffChange : FieldText
  predVal : FieldText
  predChange : FieldText
  realVal : FieldText
  realPriceChange : FieldText
deriving DecidableEq

/-- Source function `updateDisplayValues(dayIndex, ticker)` (part_004 lines 324-353):
returns `none` when `calculateDynamicValues` returned null (source logs and
returns).  Otherwise `isLastDay = dayIndex === dates.length - 1` and
`hasValidRealPrice = real_price && real_price > 0`; on the last day with
no valid real price the real and difference fields are overwritten with
`Unknown` / `--`. -/
def updateDisplayValues (pred : Option PredData) (hist : Option HistData)
    (dayIndex : ℤ) : Option DisplayFields :=
  match calculateDynamicValues pred hist dayIndex, pred with
  | some values, some predData =>
      let isLastDay := dayIndex = (predData.dates.length : ℤ) - 1
      let hasValidRealPrice := 0 < values.real_price
      let base : DisplayFields :=
        { diffVal := .dollars values.difference
          diffChange := .pct values.difference_pct
          predVal := .dollars values.predicted_price
          predChange := .pct values.predicted_change
          realVal := .dollars values.real_price
          realPriceChange := .pct values.real_change }
      if isLastDay ∧ ¬ hasValidRealPrice then
        some { base with
                realVal := .unknownText
                realPriceChange := .dashes
                diffVal := .unknownText
                diffChange := .dashes }
      else some base
  | _, _ => none

/-- Observable state touched by `updateSliderPosition` (part_004 lines
498-513): the global `currentDayIndex`, the knob's `left` fraction, and the
metrics panel contents. -/
structure SliderState where
  currentDayIndex : ℤ
  knobPct : Option ℚ
  display : Option DisplayFields
deriving DecidableEq

/-- Source function `updateSliderPosition(dayIndex)` (part_004 lines 498-513).  The source
reads `const pct = positions[dayIndex]` with no clamping: out of range the
read yields `undefined`, so the knob fraction `(pad + pct*(300-pad*2))/300`
is NaN (modelled `none`).  `currentDayIndex = dayIndex` is assigned
unconditionally, then `updateDisplayValues` runs (returning early, leaving
the panel untouched, when its range check fails). -/
def updateSliderPosition (pred : Option PredData) (hist : Option HistData)
    (dayIndex : ℤ) (st : SliderState) : SliderState :=
  let pad : ℚ := 10
  let pct : Option ℚ :=
    if 0 ≤ dayIndex ∧ dayIndex < (positions.length : ℤ) then
      some (positions.getD dayIndex.toNat 0)
    else none
  { currentDayIndex := dayIndex
    knobPct := pct.map (fun p => (pad + p * (300 - pad * 2)) / 300)
    display :=
      match updateDisplayValues pred hist dayIndex with
      | some df => some df
      | none => st.display }

/-- Outcome of `drawWeeklyComparisonChart` (part_004 lines 384-465):
either the static `"No weekly data available"` placeholder, an uncaught
JavaScript `TypeError` (reading a coordinate of an `undefined` point), or a
successfully drawn chart. -/
inductive ChartOutcome
  | noData
  | jsError
  | drawn
deriving DecidableEq

/-- Source function `drawWeeklyComparisonChart(svgEl, realData, predictedData)` (part_004
lines 384-465).  The only guard is
`!realData || !realData.prices || realData.prices.length === 0`.  When the
predicted series has the same length as the real one, the source builds
`[predictedPoints[0], ..., predictedPoints[4]]` (line 446) and dereferences
each entry, throwing if the series has fewer than 5 points; the real-point
markers (line 457) dereference `realPoints[0..3]` and the last point,
throwing if the real series has fewer than 4 points. -/
def drawWeeklyComparisonChart (realData : Option HistData)
    (predData : Option PredData) : ChartOutcome :=
  match realData with
  | none => .noData
  | some rd =>
      if rd.prices.length = 0 then .noData
      else
        let realPrices := rd.prices
        let predThrows : Bool :=
          match predData with
          | some pd =>
              decide (pd.prices.length = realPrices.length ∧ pd.prices.length < 5)
          | none => false
        if predThrows then .jsError
        else if realPrices.length < 4 then .jsError
        else .drawn

/-- Page-level mutable module state used by the weekly chart (part_004
lines 152-155). -/
structure AppState where
  weeklyPredictionData : Option PredData
  weeklyHistoricalData : Option HistData
  currentDayIndex : ℤ
deriving DecidableEq

/-- Source function `setRangeWithData(period, ticker)` (part_004 lines 692-810), as its
effect on the module state, with the (non-cancelable) fetch results passed
as parameters.  Without a ticker the function returns before touching any
state.  Otherwise it resets the cached series and `currentDayIndex = 4`
(lines 698-701); in the `'1W'` branch a successful double fetch stores both
series and sets `currentDayIndex = 4` again (line 735) before
`setupWeeklySlider` ends with `updateSliderPosition(4)` (line 565); all
other paths leave the reset state. -/
def setRangeWithData (period : String) (ticker : Option String)
    (histRes : Option HistData) (predRes : Option PredData)
    (st : AppState) : AppState :=
  match ticker with
  | none => st
  | some _ =>
      let st1 : AppState :=
        { weeklyPredictionData := none
          weeklyHistoricalData := none
          currentDayIndex := 4 }
      if period = "1W" then
        match histRes, predRes with
        | some h, some p =>
            { weeklyPredictionData := some p
              weeklyHistoricalData := some h
              currentDayIndex := 4 }
        | _, _ => st1
      else st1

/-- CSS class chosen for a change pill by `updatePillClasses`. -/
inductive PillClass
  | up
  | down
deriving DecidableEq

/-- Semantics of `parseFloat` on a rendered change
field (part_004 lines 374-375): numeric texts parse back to their value,
`"Unknown"` and `"--"` parse to NaN (modelled `none`). -/
def parsePillValue : FieldText → Option ℚ
  | .unknownText => none
  | .dashes => none
  | .dollars v => some v
  | .pct v => some v

/-- Source function `updatePillClasses(predChangeValue, realChangeValue)` (part_004 lines
844-876): `predIsUp = predParsed >= 0`, `realIsUp = realParsed >= 0`
(false for NaN, as in JavaScript), then each pill gets class `up` or
`down`. -/
def updatePillClasses (predParsed realParsed : Option ℚ) :
    PillClass × PillClass :=
  let isUp : Option ℚ → Bool := fun v =>
    match v with
    | some x => decide (0 ≤ x)
    | none => false
  (if isUp predParsed then .up else .down,
   if isUp realParsed then .up else .down)

/-! Concrete example data, following the worked example of the
specification: historical prices `[100,102,101,103,?]` (the last day not
yet closed, a falsy price), predicted prices `[101,103,100,104,105]`,
previous day close `99`. -/

/-- Example weekly historical payload. -/
def exHist : HistData :=
  { dates := ["2025-01-06", "2025-01-07", "2025-01-08", "2025-01-09", "2025-01-10"]
    prices := [100, 102, 101, 103, 0]
    previous_day_price := some 99 }

/-- Example weekly prediction payload. -/
def exPred : PredData :=
  { dates := ["2025-01-06", "2025-01-07", "2025-01-08", "2025-01-09", "2025-01-10"]
    prices := [101, 103, 100, 104, 105] }

/-- A malformed 4-point historical series. -/
def malformedHist : HistData :=
  { dates := ["2025-01-06", "2025-01-07", "2025-01-08", "2025-01-09"]
    prices := [100, 102, 101, 103]
    previous_day_price := some 99 }

/-- A malformed 4-point prediction series. -/
def malformedPred : PredData :=
  { dates := ["2025-01-06", "2025-01-07", "2025-01-08", "2025-01-09"]
    prices := [101, 103, 100, 104] }

/-- The `DynamicValues` produced for day 0 of the example data. -/
def exV0 : DynamicValues :=
  ⟨"2025-01-06", 101, 200/99, 100, 100/99, 1, 1⟩

/-! ### Helper lemmas about the snapping function -/

set_option maxHeartbeats 2000000 in
/-- Closed-form characterisation of `snapToNearestPosition`: the five stops
split the line at `1/8, 3/8, 5/8, 7/8`, each boundary point going to the
lower index (the loop replaces the running minimum only on a strictly
smaller distance). -/
lemma snap_char (p : ℚ) :
    snapToNearestPosition p =
      if 8 * p ≤ 1 then 0
      else if 8 * p ≤ 3 then 1
      else if 8 * p ≤ 5 then 2
      else if 8 * p ≤ 7 then 3
      else 4 := by
  have henum : positions.enum.drop 1 = [(1, (1:ℚ)/4), (2, 1/2), (3, 3/4), (4, 1)] := by
    norm_num [positions, List.enum, List.enumFrom]
  simp only [snapToNearestPosition, henum, snapAux, positions,
    List.getD_cons_zero, sub_zero]
  split_ifs <;>
    first
      | rfl
      | (exfalso; simp only [← sq_lt_sq] at *; nlinarith [sq_nonneg p])

set_option maxHeartbeats 2000000 in
/-- The function `snapToNearestPosition` returns an index below 5 whose stop minimises
the absolute distance to the input, strictly beating every lower index. -/
lemma snap_spec (p : ℚ) :
    snapToNearestPosition p < 5 ∧
    (∀ j, j < 5 →
      |p - positions.getD (snapToNearestPosition p) 0| ≤ |p - positions.getD j 0|) ∧
    (∀ j, j < snapToNearestPosition p →
      |p - positions.getD (snapToNearestPosition p) 0| < |p - positions.getD j 0|) := by
  rw [snap_char]
  split_ifs <;>
    refine ⟨by norm_num, fun j hj => ?_, fun j hj => ?_⟩ <;>
    interval_cases j <;>
    norm_num [positions] <;>
    first
      | (rw [← sq_le_sq]; nlinarith [sq_nonneg p])
      | (rw [← sq_lt_sq]; nlinarith [sq_nonneg p])

/-- The raw fraction `0.4` snaps to index 2 (nearest stop `0.5`). -/
lemma snap_two_fifths : snapToNearestPosition (2/5) = 2 := by
  rw [snap_char]; norm_num

/-- The tie point `0.125` snaps to the lower index 0. -/
lemma snap_one_eighth : snapToNearestPosition (1/8) = 0 := by
  rw [snap_char]; norm_num

/-! ### Helper lemmas about the derived-metrics computation -/

/-- Field equations of a successful `calculateDynamicValues` call: the
prices are read at `dayIndex`, the difference fields are the absolute and
signed-relative prediction error, and the index passed the range check. -/
lemma cdv_fields (pd : PredData) (hd : HistData) (i : ℤ) (v : DynamicValues)
    (h : calculateDynamicValues (some pd) (some hd) i = some v) :
    v.real_price = hd.prices.getD i.toNat 0 ∧
    v.predicted_price = pd.prices.getD i.toNat 0 ∧
    v.difference = |pd.prices.getD i.toNat 0 - hd.prices.getD i.toNat 0| ∧
    v.difference_pct =
      (pd.prices.getD i.toNat 0 - hd.prices.getD i.toNat 0) /
        hd.prices.getD i.toNat 0 * 100 ∧
    0 ≤ i ∧ i < (pd.dates.length : ℤ) := by
  simp only [calculateDynamicValues] at h
  split at h
  · exact absurd h (by simp)
  · injection h with h
    subst h
    refine ⟨rfl, rfl, rfl, rfl, ?_, ?_⟩ <;> omega

/-- A successful `calculateDynamicValues` call exists exactly on in-range
indices. -/
lemma cdv_isSome (pd : PredData) (hd : HistData) (i : ℤ)
    (h0 : 0 ≤ i) (h1 : i < (pd.dates.length : ℤ)) :
    ∃ v, calculateDynamicValues (some pd) (some hd) i = some v := by
  simp only [calculateDynamicValues]
  rw [if_neg (by omega)]
  exact ⟨_, rfl⟩

/-- On the last day of a 5-point series with no valid (positive) real
price, `updateDisplayValues` writes the explicit unknown indicators into
the real and difference fields. -/
lemma udv_last_unknown (pd : PredData) (hd : HistData)
    (hlen : pd.dates.length = 5) (df : DisplayFields)
    (h : updateDisplayValues (some pd) (some hd) 4 = some df)
    (hreal : ¬ 0 < hd.prices.getD 4 0) :
    df.realVal = FieldText.unknownText ∧
    df.realPriceChange = FieldText.dashes ∧
    df.diffVal = FieldText.unknownText ∧
    df.diffChange = FieldText.dashes := by
  cases hcv : calculateDynamicValues (some pd) (some hd) 4 with
  | none =>
      simp only [updateDisplayValues, hcv] at h
      exact Option.noConfusion h
  | some v =>
      simp only [updateDisplayValues, hcv] at h
      have hv := cdv_fields pd hd 4 v hcv
      have hlast : (4:ℤ) = (pd.dates.length : ℤ) - 1 ∧ ¬ 0 < v.real_price := by
        constructor
        · rw [hlen]; norm_num
        · rw [hv.1]; simpa using hreal
      rw [if_pos hlast] at h
      injection h with h
      subst h
      exact ⟨rfl, rfl, rfl, rfl⟩

end StockPredictor

namespace StockPredictorClaims

open StockPredictor

/-- C1: for every fractional pointer position `p ∈ [0,1]`,
`handlePointerPosition` (that is, `pointerToPercent` followed by
`snapToNearestPosition`) selects the day index whose fixed stop in
`{0, 1/4, 1/2, 3/4, 1}` minimises `|p - stop|`, ties broken toward the
lower index (first-found-minimum); in particular `p = 0.4` selects index 2
and `p = 0.125` selects index 0. -/
theorem c1_snap_selects_nearest_stop (p : ℚ) (hp0 : 0 ≤ p) (hp1 : p ≤ 1) :
    (∀ j, j < 5 →
      |p - positions.getD (snapToNearestPosition p) 0| ≤ |p - positions.getD j 0|) ∧
    (∀ j, j < snapToNearestPosition p →
      |p - positions.getD (snapToNearestPosition p) 0| < |p - positions.getD j 0|) ∧
    (∀ clientX rectLeft rectWidth : ℚ,
      handlePointerPosition clientX rectLeft rectWidth =
        snapToNearestPosition (pointerToPercent clientX rectLeft rectWidth)) ∧
    snapToNearestPosition (2/5) = 2 ∧ snapToNearestPosition (1/8) = 0 := by
  obtain ⟨-, hmin, hfirst⟩ := snap_spec p
  exact ⟨hmin, hfirst, fun _ _ _ => rfl, snap_two_fifths, snap_one_eighth⟩

/-- Witness for C1 at the concrete position `p = 2/5`. -/
theorem c1_snap_selects_nearest_stop_witness :
    (0:ℚ) ≤ 2/5 ∧ (2/5:ℚ) ≤ 1 ∧
    |(2/5:ℚ) - positions.getD (snapToNearestPosition (2/5)) 0| ≤
      |(2/5:ℚ) - positions.getD 3 0| ∧
    snapToNearestPosition (2/5) = 2 := by
  refine ⟨by norm_num, by norm_num, ?_, ?_⟩
  · exact (c1_snap_selects_nearest_stop (2/5) (by norm_num) (by norm_num)).1 3
      (by norm_num)
  · exact (c1_snap_selects_nearest_stop (2/5) (by norm_num) (by norm_num)).2.2.2.1

/-- C2 (code evaluated at the failing input): the knob keydown handler maps
the Home key to index 4 for every current index — `updateSliderPosition(4)`
is hard-coded in the source — so Home does not select index 0 as the
specification states; End maps to `positions.length - 1 = 4` as specified. -/
theorem c2_home_goes_to_last_index :
    (∀ i : ℤ, handleKey Key.home i = 4) ∧
    (∀ i : ℤ, handleKey Key.endKey i = 4) ∧
    handleKey Key.home 0 = 4 ∧ (4 : ℤ) ≠ 0 := by
  refine ⟨fun i => rfl, fun i => ?_, rfl, by norm_num⟩
  norm_num [handleKey, positions]

/-- C8: `setRangeWithData` with a ticker always resets `currentDayIndex`
to 4 (the most recent day), whatever was selected before and whatever the
fetches return. -/
theorem c8_reset_selection_to_last (period : String) (t : String)
    (histRes : Option HistData) (predRes : Option PredData) (st : AppState) :
    (setRangeWithData period (some t) histRes predRes st).currentDayIndex = 4 := by
  cases histRes <;> cases predRes <;>
    simp only [setRangeWithData] <;> split_ifs <;> rfl

/-- C9: for any pointer x-coordinate and positive track width,
`pointerToPercent` lands in `[0,1]`, `snapToNearestPosition` always returns
an index below 5, and hence every pointer-driven transition yields a valid
day index. -/
theorem c9_pointer_yields_valid_index (clientX rectLeft rectWidth : ℚ)
    (hw : 0 < rectWidth) :
    0 ≤ pointerToPercent clientX rectLeft rectWidth ∧
    pointerToPercent clientX rectLeft rectWidth ≤ 1 ∧
    (∀ p : ℚ, snapToNearestPosition p < 5) ∧
    handlePointerPosition clientX rectLeft rectWidth < 5 := by
  refine ⟨le_max_left _ _, ?_, fun p => (snap_spec p).1, (snap_spec _).1⟩
  exact max_le (by norm_num) (min_le_left _ _)

/-- Witness for C9 at `clientX = 5`, `rect.left = 2`, `rect.width = 10`. -/
theorem c9_pointer_yields_valid_index_witness :
    (0:ℚ) < 10 ∧ 0 ≤ pointerToPercent 5 2 10 ∧ pointerToPercent 5 2 10 ≤ 1 ∧
    handlePointerPosition 5 2 10 < 5 := by
  refine ⟨by norm_num, ?_, ?_, ?_⟩
  · exact (c9_pointer_yields_valid_index 5 2 10 (by norm_num)).1
  · exact (c9_pointer_yields_valid_index 5 2 10 (by norm_num)).2.1
  · exact (c9_pointer_yields_valid_index 5 2 10 (by norm_num)).2.2.2

/-- C3: for every loaded series and selection index, if the index is
positive the baseline of both percentage changes is the historical (actual)
price at the previous index and each change is
`(price - baseline) / baseline * 100`; at index 0 the baseline is
`previous_day_price` when present and strictly positive, and otherwise both
changes are exactly 0 (a fallback, not an error). -/
theorem c3_baseline_previous_actual (pd : PredData) (hd : HistData) (i : ℤ)
    (v : DynamicValues)
    (h : calculateDynamicValues (some pd) (some hd) i = some v) :
    (0 < i →
      v.predicted_change =
        (pd.prices.getD i.toNat 0 - hd.prices.getD (i - 1).toNat 0) /
          hd.prices.getD (i - 1).toNat 0 * 100 ∧
      v.real_change =
        (hd.prices.getD i.toNat 0 - hd.prices.getD (i - 1).toNat 0) /
          hd.prices.getD (i - 1).toNat 0 * 100) ∧
    (i = 0 → ∀ q, hd.previous_day_price = some q → 0 < q →
      v.predicted_change = (pd.prices.getD 0 0 - q) / q * 100 ∧
      v.real_change = (hd.prices.getD 0 0 - q) / q * 100) ∧
    (i = 0 →
      (hd.previous_day_price = none ∨
        ∃ q, hd.previous_day_price = some q ∧ q ≤ 0) →
      v.predicted_change = 0 ∧ v.real_change = 0) := by
  simp only [calculateDynamicValues] at h
  split at h
  · exact absurd h (by simp)
  · injection h with h
    subst h
    refine ⟨fun hi => ?_, fun hi q hq hqpos => ?_, fun hi hcase => ?_⟩
    · constructor <;> simp [hi]
    · subst hi
      constructor <;> simp [hq, hqpos]
    · subst hi
      rcases hcase with hnone | ⟨q, hq, hq0⟩
      · constructor <;> simp [hnone]
      · constructor <;> simp [hq, not_lt.mpr hq0]

/-- Witness for C3 at the worked example of the specification: index 0,
`previous_day_price = 99`, giving
`predicted_change = (101-99)/99*100` and `real_change = (100-99)/99*100`. -/
theorem c3_baseline_previous_actual_witness :
    calculateDynamicValues (some exPred) (some exHist) 0 = some exV0 ∧
    exV0.predicted_change = (101 - 99) / 99 * 100 ∧
    exV0.real_change = (100 - 99) / 99 * 100 := by
  have h : calculateDynamicValues (some exPred) (some exHist) 0 = some exV0 := by
    norm_num [calculateDynamicValues, exPred, exHist, exV0, List.getD,
      show Int.toNat 0 = 0 from rfl]
  have hc := (c3_baseline_previous_actual exPred exHist 0 exV0 h).2.1 rfl 99 rfl
    (by norm_num)
  refine ⟨h, ?_, ?_⟩
  · rw [hc.1]; norm_num [exPred]
  · rw [hc.2]; norm_num [exHist]

/-- C4: when the selection index is 4 and the real price for that day is
not a valid (positive) value, the rendered real-price, real-change and both
difference fields are the explicit indicators `Unknown` / `--`, which are
distinguishable from every rendered numeric value; for indices 0 through 3
the real price and real change are always rendered as numbers. -/
theorem c4_unknown_is_tri_state (pd : PredData) (hd : HistData)
    (hlen : pd.dates.length = 5) :
    (∀ df, updateDisplayValues (some pd) (some hd) 4 = some df →
      ¬ 0 < hd.prices.getD 4 0 →
      df.realVal = FieldText.unknownText ∧
      df.realPriceChange = FieldText.dashes ∧
      df.diffVal = FieldText.unknownText ∧
      df.diffChange = FieldText.dashes) ∧
    (∀ i : ℤ, 0 ≤ i → i ≤ 3 →
      ∃ df, updateDisplayValues (some pd) (some hd) i = some df ∧
        (∃ q, df.realVal = FieldText.dollars q) ∧
        (∃ q, df.realPriceChange = FieldText.pct q)) ∧
    (∀ q, FieldText.unknownText ≠ FieldText.dollars q) ∧
    (∀ q, FieldText.dashes ≠ FieldText.pct q) := by
  refine ⟨?_, ?_, ?_, ?_⟩
  · intro df h hreal
    exact udv_last_unknown pd hd hlen df h hreal
  · intro i h0 h3
    obtain ⟨v, hcv⟩ := cdv_isSome pd hd i h0 (by rw [hlen]; omega)
    refine ⟨{ diffVal := FieldText.dollars v.difference
              diffChange := FieldText.pct v.difference_pct
              predVal := FieldText.dollars v.predicted_price
              predChange := FieldText.pct v.predicted_change
              realVal := FieldText.dollars v.real_price
              realPriceChange := FieldText.pct v.real_change },
      ?_, ⟨v.real_price, rfl⟩, ⟨v.real_change, rfl⟩⟩
    simp only [updateDisplayValues, hcv]
    rw [if_neg (fun hc => by have hi4 := hc.1; rw [hlen] at hi4; omega)]
  · intro q hq
    cases hq
  · intro q hq
    cases hq

/-- Witness for C4 on the example data, whose day-4 real price has not
closed (falsy price 0). -/
theorem c4_unknown_is_tri_state_witness :
    exPred.dates.length = 5 ∧
    updateDisplayValues (some exPred) (some exHist) 4 =
      some ⟨FieldText.unknownText, FieldText.dashes, FieldText.dollars 105,
        FieldText.pct ((105 - 103) / 103 * 100), FieldText.unknownText,
        FieldText.dashes⟩ ∧
    FieldText.unknownText ≠ FieldText.dollars 0 := by
  have hlen : exPred.dates.length = 5 := by norm_num [exPred]
  have hdf : updateDisplayValues (some exPred) (some exHist) 4 =
      some ⟨FieldText.unknownText, FieldText.dashes, FieldText.dollars 105,
        FieldText.pct ((105 - 103) / 103 * 100), FieldText.unknownText,
        FieldText.dashes⟩ := by
    norm_num [updateDisplayValues, calculateDynamicValues, exPred, exHist,
      List.getD, show Int.toNat 4 = 4 from rfl, show Int.toNat 3 = 3 from rfl]
  refine ⟨hlen, hdf, (c4_unknown_is_tri_state exPred exHist hlen).2.2.1 0⟩

/-- C7: whenever the selected day's real price is known (valid and
positive), the rendered absolute difference is
`|predicted_price - real_price|` and the rendered difference percentage is
the signed `(predicted_price - real_price) / real_price * 100`. -/
theorem c7_difference_fields (pd : PredData) (hd : HistData) (i : ℤ)
    (df : DisplayFields)
    (h : updateDisplayValues (some pd) (some hd) i = some df)
    (hreal : 0 < hd.prices.getD i.toNat 0) :
    df.diffVal = FieldText.dollars
      |pd.prices.getD i.toNat 0 - hd.prices.getD i.toNat 0| ∧
    df.diffChange = FieldText.pct
      ((pd.prices.getD i.toNat 0 - hd.prices.getD i.toNat 0) /
        hd.prices.getD i.toNat 0 * 100) := by
  cases hcv : calculateDynamicValues (some pd) (some hd) i with
  | none =>
      simp only [updateDisplayValues, hcv] at h
      exact Option.noConfusion h
  | some v =>
      have hv := cdv_fields pd hd i v hcv
      simp only [updateDisplayValues, hcv] at h
      rw [if_neg (fun hc => hc.2 (by rw [hv.1]; exact hreal))] at h
      injection h with h
      subst h
      constructor <;> simp [hv.2.2.1, hv.2.2.2.1]

/-- Witness for C7 at index 3 of the example data: real price 103,
predicted 104, so the rendered difference is 1 dollar and the rendered
difference percentage is `(104-103)/103*100`. -/
theorem c7_difference_fields_witness :
    (0:ℚ) < exHist.prices.getD (Int.toNat 3) 0 ∧
    updateDisplayValues (some exPred) (some exHist) 3 =
      some ⟨FieldText.dollars 1, FieldText.pct ((104 - 103) / 103 * 100),
        FieldText.dollars 104, FieldText.pct ((104 - 101) / 101 * 100),
        FieldText.dollars 103, FieldText.pct ((103 - 101) / 101 * 100)⟩ ∧
    (⟨FieldText.dollars 1, FieldText.pct ((104 - 103) / 103 * 100),
        FieldText.dollars 104, FieldText.pct ((104 - 101) / 101 * 100),
        FieldText.dollars 103, FieldText.pct ((103 - 101) / 101 * 100)⟩ :
      DisplayFields).diffVal =
      FieldText.dollars
        |exPred.prices.getD (Int.toNat 3) 0 - exHist.prices.getD (Int.toNat 3) 0| := by
  have hreal : (0:ℚ) < exHist.prices.getD (Int.toNat 3) 0 := by
    norm_num [exHist, List.getD, show Int.toNat 3 = 3 from rfl]
  have hdf : updateDisplayValues (some exPred) (some exHist) 3 =
      some ⟨FieldText.dollars 1, FieldText.pct ((104 - 103) / 103 * 100),
        FieldText.dollars 104, FieldText.pct ((104 - 101) / 101 * 100),
        FieldText.dollars 103, FieldText.pct ((103 - 101) / 101 * 100)⟩ := by
    norm_num [updateDisplayValues, calculateDynamicValues, exPred, exHist,
      List.getD, show Int.toNat 3 = 3 from rfl, show Int.toNat 2 = 2 from rfl]
  exact ⟨hreal, hdf, (c7_difference_fields exPred exHist 3 _ hdf hreal).1⟩

/-- C5 counterexample: initializing the chart with two matching 4-point
series does not enter the no-data error state — the source's only guard is
`prices.length === 0` — and instead the hard-coded predicted-marker list
`[predictedPoints[0], ..., predictedPoints[4]]` dereferences an
`undefined` entry, an uncaught `TypeError`. -/
theorem c5_counterexample_four_point_series :
    drawWeeklyComparisonChart (some malformedHist) (some malformedPred) =
      ChartOutcome.jsError ∧
    ChartOutcome.jsError ≠ ChartOutcome.noData := by
  constructor
  · norm_num [drawWeeklyComparisonChart, malformedHist, malformedPred]
  · intro h
    cases h

/-- C5 (amended): the chart enters the no-data state only when the real
series is absent or its price list is empty; a malformed 4-point pair of
series is instead drawn far enough to throw an uncaught `TypeError` from
the predicted-marker loop. -/
theorem c5_amended_no_data_only_when_empty (rd : Option HistData)
    (pd : Option PredData) :
    (drawWeeklyComparisonChart rd pd = ChartOutcome.noData ↔
      rd = none ∨ ∃ h, rd = some h ∧ h.prices = []) ∧
    (∀ h p, rd = some h → pd = some p →
      h.prices.length = 4 → p.prices.length = 4 →
      drawWeeklyComparisonChart rd pd = ChartOutcome.jsError) := by
  constructor
  · cases rd with
    | none => simp [drawWeeklyComparisonChart]
    | some h =>
        simp only [drawWeeklyComparisonChart]
        split_ifs with h0 h1 h2
        · simp [List.length_eq_zero.mp h0]
        · have : h.prices ≠ [] := by
            rw [ne_eq, ← List.length_eq_zero]; exact h0
          constructor
          · intro hc; cases hc
          · rintro (hc | ⟨h', hh', hemp⟩)
            · cases hc
            · injection hh' with hh'; subst hh'; exact absurd hemp this
        · have : h.prices ≠ [] := by
            rw [ne_eq, ← List.length_eq_zero]; exact h0
          constructor
          · intro hc; cases hc
          · rintro (hc | ⟨h', hh', hemp⟩)
            · cases hc
            · injection hh' with hh'; subst hh'; exact absurd hemp this
        · have : h.prices ≠ [] := by
            rw [ne_eq, ← List.length_eq_zero]; exact h0
          constructor
          · intro hc; cases hc
          · rintro (hc | ⟨h', hh', hemp⟩)
            · cases hc
            · injection hh' with hh'; subst hh'; exact absurd hemp this
  · intro h p hr hp h4 p4
    subst hr; subst hp
    simp only [drawWeeklyComparisonChart]
    rw [if_neg (by omega)]
    rw [if_pos (by rw [p4, h4]; norm_num)]

/-- Witness for C5 (amended) at the concrete malformed 4-point series. -/
theorem c5_amended_no_data_only_when_empty_witness :
    malformedHist.prices.length = 4 ∧ malformedPred.prices.length = 4 ∧
    drawWeeklyComparisonChart (some malformedHist) (some malformedPred) =
      ChartOutcome.jsError := by
  refine ⟨by norm_num [malformedHist], by norm_num [malformedPred], ?_⟩
  exact (c5_amended_no_data_only_when_empty (some malformedHist)
    (some malformedPred)).2 malformedHist malformedPred rfl rfl
    (by norm_num [malformedHist]) (by norm_num [malformedPred])

/-- C6 counterexample: `updateSliderPosition` applied to the out-of-range
index 7 stores 7 in `currentDayIndex` — it does not clamp into `[0,4]`, so
the component is not left in the claimed valid state. -/
theorem c6_counterexample_no_clamping :
    (updateSliderPosition (some exPred) (some exHist) 7
        ⟨4, none, none⟩).currentDayIndex = 7 ∧
    ¬ (updateSliderPosition (some exPred) (some exHist) 7
        ⟨4, none, none⟩).currentDayIndex ≤ 4 := by
  refine ⟨rfl, ?_⟩
  simp only [updateSliderPosition]
  norm_num

/-- C6 (amended): `updateSliderPosition` stores its argument in
`currentDayIndex` unclamped; in range it sets the knob fraction from the
`positions` table, while out of range the `positions` read is undefined
(knob fraction NaN) and the metrics recomputation is rejected by the range
check in `calculateDynamicValues`, leaving the metrics panel untouched. -/
theorem c6_amended_unclamped_update (pd : PredData) (hd : HistData)
    (i : ℤ) (st : SliderState) (hlen : pd.dates.length = 5) :
    (updateSliderPosition (some pd) (some hd) i st).currentDayIndex = i ∧
    (0 ≤ i ∧ i < 5 →
      (updateSliderPosition (some pd) (some hd) i st).knobPct =
        some ((10 + positions.getD i.toNat 0 * 280) / 300)) ∧
    (i < 0 ∨ 5 ≤ i →
      (updateSliderPosition (some pd) (some hd) i st).knobPct = none ∧
      calculateDynamicValues (some pd) (some hd) i = none ∧
      (updateSliderPosition (some pd) (some hd) i st).display = st.display) := by
  refine ⟨rfl, fun hin => ?_, fun hout => ?_⟩
  · simp only [updateSliderPosition]
    rw [if_pos (by constructor <;> [exact hin.1; norm_num [positions, hin.2]])]
    simp only [Option.map_some']
    norm_num
  · have hb : ¬ (0 ≤ i ∧ i < (positions.length : ℤ)) := by
      norm_num [positions]; omega
    have hcdv : calculateDynamicValues (some pd) (some hd) i = none := by
      simp only [calculateDynamicValues]
      rw [if_pos (by rw [hlen]; omega)]
    refine ⟨?_, hcdv, ?_⟩
    · simp only [updateSliderPosition]
      rw [if_neg hb]
      rfl
    · simp only [updateSliderPosition, updateDisplayValues, hcdv]

/-- Witness for C6 (amended) at the out-of-range index 7. -/
theorem c6_amended_unclamped_update_witness :
    exPred.dates.length = 5 ∧
    (updateSliderPosition (some exPred) (some exHist) 7
        ⟨4, none, none⟩).currentDayIndex = 7 ∧
    (updateSliderPosition (some exPred) (some exHist) 7
        ⟨4, none, none⟩).knobPct = none ∧
    calculateDynamicValues (some exPred) (some exHist) 7 = none := by
  have hlen : exPred.dates.length = 5 := by norm_num [exPred]
  have hc := c6_amended_unclamped_update exPred exHist 7 ⟨4, none, none⟩ hlen
  have hout := hc.2.2 (by norm_num)
  exact ⟨hlen, hc.1, hout.1, hout.2.1⟩

/-- C10: `updatePillClasses` assigns the `up` class exactly when the parsed
change value is `>= 0` and `down` otherwise; the unknown-real-price case
renders the real change as `--`, which parses to NaN, so the unknown state
always receives the `down` class — styled identically to a decline. -/
theorem c10_pill_class_assignment :
    (∀ (pr : Option ℚ) (q : ℚ),
      (updatePillClasses pr (some q)).2 =
        if 0 ≤ q then PillClass.up else PillClass.down) ∧
    (∀ pr : Option ℚ, (updatePillClasses pr none).2 = PillClass.down) ∧
    parsePillValue FieldText.dashes = none ∧
    (∀ (pd : PredData) (hd : HistData) (df : DisplayFields),
      pd.dates.length = 5 →
      updateDisplayValues (some pd) (some hd) 4 = some df →
      ¬ 0 < hd.prices.getD 4 0 →
      (updatePillClasses (parsePillValue df.predChange)
          (parsePillValue df.realPriceChange)).2 = PillClass.down) := by
  refine ⟨?_, fun pr => rfl, rfl, ?_⟩
  · intro pr q
    by_cases hq : 0 ≤ q <;> simp [updatePillClasses, hq]
  · intro pd hd df hlen h hreal
    rw [(udv_last_unknown pd hd hlen df h hreal).2.1]
    rfl

/-- Witness for C10 on the example data: at day 4 the real change renders
as `--` and its pill is classed `down`. -/
theorem c10_pill_class_assignment_witness :
    exPred.dates.length = 5 ∧
    updateDisplayValues (some exPred) (some exHist) 4 =
      some ⟨FieldText.unknownText, FieldText.dashes, FieldText.dollars 105,
        FieldText.pct ((105 - 103) / 103 * 100), FieldText.unknownText,
        FieldText.dashes⟩ ∧
    ¬ (0:ℚ) < exHist.prices.getD 4 0 ∧
    (updatePillClasses
        (parsePillValue (FieldText.pct ((105 - 103) / 103 * 100)))
        (parsePillValue FieldText.dashes)).2 = PillClass.down := by
  have hlen : exPred.dates.length = 5 := by norm_num [exPred]
  have hreal : ¬ (0:ℚ) < exHist.prices.getD 4 0 := by
    norm_num [exHist, List.getD]
  have hdf : updateDisplayValues (some exPred) (some exHist) 4 =
      some ⟨FieldText.unknownText, FieldText.dashes, FieldText.dollars 105,
        FieldText.pct ((105 - 103) / 103 * 100), FieldText.unknownText,
        FieldText.dashes⟩ := by
    norm_num [updateDisplayValues, calculateDynamicValues, exPred, exHist,
      List.getD, show Int.toNat 4 = 4 from rfl, show Int.toNat 3 = 3 from rfl]
  exact ⟨hlen, hdf, hreal,
    (c10_pill_class_assignment).2.2.2 exPred exHist _ hlen hdf hreal⟩

end StockPredictorClaims
